import Mathlib

/-!
Shallow embedding of `applications/services/storage/storage_cli.c` (the storage
command-line front-end of the firmware) together with proofs about its
behaviour.

Modelling conventions:
* bytes are `Nat` values (the C code moves `uint8_t` buffers; no arithmetic is
  performed on the bytes, so no wraparound is needed);
* console input is a list of bytes (or characters); a handler that would block
  on `cli_getc` with no input left is modelled by returning `none`;
* the storage collaborator (`storage_*` calls) is external to this file's
  repository slice, so its results enter the definitions as explicit
  parameters (`Except FS_Error ...`); a data write to storage is modelled as
  transferring all requested bytes unless stated otherwise;
* paths and tokens are `String` / `List Char` with exact comparison, matching
  the `furi_string_cmp_str` calls in the source.
-/

/-- Constant `CliSymbolAsciiETX` (ASCII end-of-text, 0x03), the cancel symbol checked at
`storage_cli.c:243`. -/
def CliSymbolAsciiETX : Nat := 3

/-- The fixed write buffer capacity `buffer_size = 512` of `storage_cli_write`
(`storage_cli.c:232`). -/
def write_buffer_size : Nat := 512

/-- The filesystem error enumeration `FS_Error` of the storage service (the
`storage` collaborator; values as used by the source: `FSE_OK`,
`FSE_NOT_IMPLEMENTED`, ...). -/
inductive FS_Error
  | FSE_OK
  | FSE_NOT_READY
  | FSE_EXIST
  | FSE_NOT_EXIST
  | FSE_INVALID_PARAMETER
  | FSE_DENIED
  | FSE_INVALID_NAME
  | FSE_INTERNAL
  | FSE_NOT_IMPLEMENTED
  | FSE_ALREADY_OPEN
deriving DecidableEq, Repr

/-- Constant `STORAGE_INT_PATH_PREFIX` of the storage API, the internal-volume path marker `"/int"`. -/
def STORAGE_INT_PATH : String := "/int"

/-- Constant `STORAGE_EXT_PATH_PREFIX` of the storage API, the external-volume path marker `"/ext"`. -/
def STORAGE_EXT_PATH : String := "/ext"

/-- Constant `STORAGE_ANY_PATH_PREFIX` of the storage API, the any-volume path marker `"/any"`. -/
def STORAGE_ANY_PATH : String := "/any"

/-- The main loop of `storage_cli_write` (`storage_cli.c:240-269`).

State: `input` is the remaining console bytes (`cli_getc` yields them in
order), `buf` holds the bytes stored in `buffer[0 .. read_index %
buffer_size)` since the last flush (the C code writes each new symbol at
`buffer[read_index % buffer_size]`, i.e. appends it to this region), and `out`
is the file content written to storage so far.  Storage writes are modelled as
transferring all requested bytes.

Result: `some content` when the loop exits via `break` (the file then holds
`content`); `none` when the console input is exhausted while the loop would
call `cli_getc` again (the session has not terminated). -/
def writeLoop : List Nat → List Nat → Nat → List Nat → Option (List Nat)
  | [], _, _, _ => none
  | symbol :: rest, buf, read_index, out =>
    if symbol = CliSymbolAsciiETX ∧ read_index % write_buffer_size > 0 then
      some (out ++ buf.take (read_index % write_buffer_size))
    else
      let buf2 := buf ++ [symbol]
      let read_index2 := read_index + 1
      if read_index2 % write_buffer_size = 0 then
        writeLoop rest [] read_index2 (out ++ buf2)
      else
        writeLoop rest buf2 read_index2 out

/-- Model of `storage_cli_write` (`storage_cli.c:228-280`) after a successful
`storage_file_open`: run the write-until-cancel loop on the given console
input with an empty buffer and an empty file region (`FSOM_OPEN_APPEND`; the
appended region starts empty). -/
def storage_cli_write (input : List Nat) : Option (List Nat) :=
  writeLoop input [] 0 []

/-- Modelled from the spec: the chunk-size argument of `read_chunks` /
`write_chunk` is "parsed as an unsigned integer; a missing or unparsable size
is a usage error".  The C code uses `sscanf(args, "%lu", &buffer_size)`
(libc, not part of this repository slice): skip leading blanks, then a
nonempty run of decimal digits yields the value, anything else fails.
Overflow of the 32-bit destination does not matter for any claim, so the
value is kept as a `Nat`. -/
def sscanf_lu (s : List Char) : Option Nat :=
  let t := s.dropWhile (fun c => c = ' ')
  let digits := t.takeWhile Char.isDigit
  if digits = [] then none
  else some (digits.foldl (fun acc c => acc * 10 + (c.toNat - '0'.toNat)) 0)

/-- The `while(file_size > 0)` loop of `storage_cli_read_chunks`
(`storage_cli.c:298-307`) with chunk size `n`, returning
`(bytes emitted, console acknowledgment bytes consumed, storage reads done)`.
Each iteration consumes one acknowledgment byte (`cli_getc`, value discarded),
reads up to `n` bytes from the file (the storage read returns
`min n remaining`), emits them, and decrements the remaining count by the
bytes actually read.

`fuel` bounds the number of iterations so that the recursion is structural;
the caller passes `content.length`, which suffices because each iteration
consumes at least one byte (the loop is entered only when `n ≠ 0`, guarded by
`if(buffer_size)` at `storage_cli.c:296`). -/
def readChunksLoopF (n : Nat) : Nat → List Nat → List Nat × Nat × Nat
  | 0, _ => ([], 0, 0)
  | fuel + 1, content =>
    if 0 < content.length then
      let r := readChunksLoopF n fuel (content.drop n)
      (content.take n ++ r.1, r.2.1 + 1, r.2.2 + 1)
    else ([], 0, 0)

/-- The read-in-chunks loop at its call site: iterate until the remaining byte
count reaches zero. -/
def readChunksLoop (n : Nat) (content : List Nat) : List Nat × Nat × Nat :=
  readChunksLoopF n content.length content

/-- Observable behaviour of one `storage_cli_read_chunks` invocation. -/
structure ReadChunksRun where
  usagePrinted : Bool
  openedFile : Bool
  openErrorPrinted : Option FS_Error
  sizeHeader : Option Nat
  emitted : List Nat
  acksConsumed : Nat
  readsDone : Nat
deriving DecidableEq, Repr

/-- Model of `storage_cli_read_chunks` (`storage_cli.c:282-320`).  `args` is the
trailing argument text; `fileRes` is the storage collaborator's answer to
`storage_file_open` (`.error e` = open failed with error `e`, `.ok content` =
open succeeded on a file holding `content`).  The chunk size is parsed first;
on parse failure usage is printed and the open is never attempted
(`storage_cli.c:289-291`).  On success the size header is printed, and the
data loop runs only when the chunk size is nonzero. -/
def storage_cli_read_chunks (args : List Char) (fileRes : Except FS_Error (List Nat)) :
    ReadChunksRun :=
  match sscanf_lu args with
  | none => ⟨true, false, none, none, [], 0, 0⟩
  | some n =>
    match fileRes with
    | .error e => ⟨false, true, some e, none, [], 0, 0⟩
    | .ok content =>
      if n ≠ 0 then
        let r := readChunksLoop n content
        ⟨false, true, none, some content.length, r.1, r.2.1, r.2.2⟩
      else
        ⟨false, true, none, some content.length, [], 0, 0⟩

/-- Observable behaviour of the body of `storage_cli_write_chunk` after a
successful open (`storage_cli.c:333-347`). -/
structure WriteChunkOutcome where
  readBytes : Nat
  writtenSize : Nat
  fileAppend : List Nat
  errorReported : Bool
deriving DecidableEq, Repr

/-- The post-open body of `storage_cli_write_chunk` (`storage_cli.c:333-347`)
with requested chunk size `n` and `console` the bytes the console currently
has available: `cli_read(cli, buffer, n)` is a single bounded read returning
`min n console.length` bytes; those bytes are then written to the file (the
storage write is modelled as transferring all bytes it was asked to write).
The post-write check compares the written count against the requested size
`n` (`written_size != buffer_size` at `storage_cli.c:342`), not against the
count actually read.  With `n = 0` the body under `if(buffer_size)` is
skipped entirely. -/
def storage_cli_write_chunk_io (n : Nat) (console : List Nat) : WriteChunkOutcome :=
  if n = 0 then ⟨0, 0, [], false⟩
  else
    let buffer := console.take n
    let read_bytes := buffer.length
    let written_size := read_bytes
    ⟨read_bytes, written_size, buffer, written_size != n⟩

/-- Observable behaviour of one `storage_cli_write_chunk` invocation. -/
structure WriteChunkRun where
  usagePrinted : Bool
  openedFile : Bool
  openErrorPrinted : Option FS_Error
  outcome : Option WriteChunkOutcome
deriving DecidableEq, Repr

/-- Model of `storage_cli_write_chunk` (`storage_cli.c:322-356`).  The chunk size is
parsed first; on parse failure usage is printed and the open is never
attempted (`storage_cli.c:329-331`).  `openRes` is the storage collaborator's
answer to `storage_file_open`. -/
def storage_cli_write_chunk (args : List Char) (openRes : Except FS_Error Unit)
    (console : List Nat) : WriteChunkRun :=
  match sscanf_lu args with
  | none => ⟨true, false, none, none⟩
  | some n =>
    match openRes with
    | .error e => ⟨false, true, some e, none⟩
    | .ok _ => ⟨false, true, none, some (storage_cli_write_chunk_io n console)⟩

/-- Modelled from the spec: `args_read_string_and_trim` (toolbox `args.c`, not
part of this repository slice) extracts the first blank-delimited token from
the input line and trims the remainder; it fails exactly when no token is
present. -/
def args_read_string_and_trim (args : List Char) : Option (List Char × List Char) :=
  let t := args.dropWhile (fun c => c = ' ')
  if t = [] then none
  else
    some (t.takeWhile (fun c => c ≠ ' '),
      (t.dropWhile (fun c => c ≠ ' ')).dropWhile (fun c => c = ' '))

/-- Modelled from the spec: `args_read_probably_quoted_string_and_trim`
(toolbox `args.c`, not part of this repository slice) extracts a possibly
double-quoted token ("the path token may be quoted to admit embedded spaces;
quoting is stripped, and leading/trailing whitespace trimmed"); it fails when
no token is present or a quoted token is unterminated (malformed). -/
def args_read_probably_quoted_string_and_trim (args : List Char) :
    Option (List Char × List Char) :=
  let t := args.dropWhile (fun c => c = ' ')
  match t with
  | [] => none
  | '"' :: rest =>
    let inner := rest.takeWhile (fun c => c ≠ '"')
    match rest.dropWhile (fun c => c ≠ '"') with
    | [] => none
    | _ :: after2 => some (inner, after2.dropWhile (fun c => c = ' '))
  | _ =>
    some (t.takeWhile (fun c => c ≠ ' '),
      (t.dropWhile (fun c => c ≠ ' ')).dropWhile (fun c => c = ' '))

/-- The sixteen verbs recognized by the dispatcher `storage_cli`
(`storage_cli.c:540-618`). -/
inductive StorageCliVerb
  | info
  | format
  | list
  | tree
  | read
  | read_chunks
  | write
  | write_chunk
  | copy
  | remove
  | rename
  | migrate
  | mkdir
  | md5
  | stat
  | timestamp
deriving DecidableEq, Repr

/-- The dispatcher's verb table, in the exact order of the `if` chain of
`storage_cli` (`storage_cli.c:540-618`). -/
def storageCliTable : List (List Char × StorageCliVerb) :=
  [("info".toList, .info), ("format".toList, .format), ("list".toList, .list),
   ("tree".toList, .tree), ("read".toList, .read), ("read_chunks".toList, .read_chunks),
   ("write".toList, .write), ("write_chunk".toList, .write_chunk), ("copy".toList, .copy),
   ("remove".toList, .remove), ("rename".toList, .rename), ("migrate".toList, .migrate),
   ("mkdir".toList, .mkdir), ("md5".toList, .md5), ("stat".toList, .stat),
   ("timestamp".toList, .timestamp)]

/-- First-match lookup over a verb table: return the verb of the first entry
whose name equals `cmd` exactly. -/
def lookupVerb : List (List Char × StorageCliVerb) → List Char → Option StorageCliVerb
  | [], _ => none
  | e :: rest, cmd => if cmd = e.1 then some e.2 else lookupVerb rest cmd

/-- Table lookup following the spec's words: the dispatched handler is "the
first table entry whose verb matches exactly".  Compared against the source's
`if` chain by `storage_cli_dispatch_spec`. -/
def tableLookup (cmd : List Char) : Option StorageCliVerb :=
  lookupVerb storageCliTable cmd

/-- The command dispatcher `storage_cli` (`storage_cli.c:522-625`): read the
verb token, then the possibly-quoted path token; if either read fails, print
usage and stop (`none`: no handler is invoked and no storage handle is
touched — the dispatcher body contains no storage call).  Otherwise compare
the verb against the fixed chain of sixteen names in source order; the first
exact match delegates to that handler (`some (verb, path, remaining args)`),
and no match prints usage (`none`). -/
def storage_cli (args : List Char) : Option (StorageCliVerb × List Char × List Char) :=
  match args_read_string_and_trim args with
  | none => none
  | some (cmd, rest1) =>
    match args_read_probably_quoted_string_and_trim rest1 with
    | none => none
    | some (path, rest2) =>
      if cmd = "info".toList then some (.info, path, rest2)
      else if cmd = "format".toList then some (.format, path, rest2)
      else if cmd = "list".toList then some (.list, path, rest2)
      else if cmd = "tree".toList then some (.tree, path, rest2)
      else if cmd = "read".toList then some (.read, path, rest2)
      else if cmd = "read_chunks".toList then some (.read_chunks, path, rest2)
      else if cmd = "write".toList then some (.write, path, rest2)
      else if cmd = "write_chunk".toList then some (.write_chunk, path, rest2)
      else if cmd = "copy".toList then some (.copy, path, rest2)
      else if cmd = "remove".toList then some (.remove, path, rest2)
      else if cmd = "rename".toList then some (.rename, path, rest2)
      else if cmd = "migrate".toList then some (.migrate, path, rest2)
      else if cmd = "mkdir".toList then some (.mkdir, path, rest2)
      else if cmd = "md5".toList then some (.md5, path, rest2)
      else if cmd = "stat".toList then some (.stat, path, rest2)
      else if cmd = "timestamp".toList then some (.timestamp, path, rest2)
      else none

/-- What `storage_cli_format` does, by branch. -/
inductive FormatAction
  | printErrorNotImplemented
  | doFormat
  | printCancelled
  | printUsage
deriving DecidableEq, Repr

/-- Model of `storage_cli_format` (`storage_cli.c:93-117`): `/int` prints the
`FSE_NOT_IMPLEMENTED` error; `/ext` asks for confirmation and calls
`storage_sd_format` (the irreversible action, `doFormat`) only when the
single character read from the console is `'y'` or `'Y'`, printing
"Cancelled." otherwise; any other path prints usage. -/
def storage_cli_format (path : String) (answer : Char) : FormatAction :=
  if path = STORAGE_INT_PATH then .printErrorNotImplemented
  else if path = STORAGE_EXT_PATH then
    if answer = 'y' ∨ answer = 'Y' then .doFormat
    else .printCancelled
  else .printUsage

/-- What `storage_cli_factory_reset` does, by branch. -/
inductive FactoryResetAction
  | wipeAndReboot
  | printSafeChoice
deriving DecidableEq, Repr

/-- Model of `storage_cli_factory_reset` (`storage_cli.c:627-639`): set the
factory-reset flag and reboot (the irreversible action, `wipeAndReboot`) only
when the confirmation character is `'y'` or `'Y'`; otherwise print "Safe
choice." and change nothing. -/
def storage_cli_factory_reset (c : Char) : FactoryResetAction :=
  if c = 'y' ∨ c = 'Y' then .wipeAndReboot else .printSafeChoice

/-- The `FileInfo` record delivered by the storage collaborator: directory
flag and size. -/
structure FileInfoM where
  isDir : Bool
  size : Nat
deriving DecidableEq, Repr

/-- One entry yielded by the `DirWalk` cursor: name and file info. -/
structure DirEntry where
  name : String
  info : FileInfoM
deriving DecidableEq, Repr

/-- One line printed by `storage_cli_tree`. -/
inductive TreeLine
  | dirLine (name : String)
  | fileLine (name : String) (size : Nat)
  | emptyLine
  | errorLine (e : FS_Error)
deriving DecidableEq, Repr

/-- Model of `storage_cli_tree` (`storage_cli.c:156-195`).  `fs p` is the storage
collaborator's behaviour for a `dir_walk_open` at path `p`: `.error e` when
the cursor cannot be opened, `.ok entries` for the sequence of entries the
cursor yields.  For the exact root marker `"/"` the walker recurses once with
the internal-volume marker and once with the external-volume marker,
concatenating the outputs in that order; otherwise it prints one line per
entry (`[D] name` or `[F] name size`), printing "Empty" when zero entries
were yielded, and surfacing the storage error with no traversal when the
cursor cannot be opened. -/
def storage_cli_tree (fs : String → Except FS_Error (List DirEntry)) (path : String) :
    List TreeLine :=
  if path = "/" then
    storage_cli_tree fs STORAGE_INT_PATH ++ storage_cli_tree fs STORAGE_EXT_PATH
  else
    match fs path with
    | .error e => [.errorLine e]
    | .ok entries =>
      if entries = [] then [.emptyLine]
      else
        entries.map (fun en =>
          if en.info.isDir then .dirLine en.name else .fileLine en.name en.info.size)
termination_by (if path = "/" then 1 else 0)
decreasing_by
  · simp [*, STORAGE_INT_PATH]
  · simp [*, STORAGE_EXT_PATH]

/-- A concrete storage behaviour used to instantiate `storage_cli_tree`
theorems: the internal volume opens and is empty, everything else fails to
open. -/
def treeFsExample : String → Except FS_Error (List DirEntry) :=
  fun p => if p = STORAGE_INT_PATH then .ok [] else .error .FSE_NOT_READY

/-- What `storage_cli_timestamp` prints.  `printStorageError` is what a call
to `storage_cli_print_error` would produce (the mapped human-readable
description of a specific error code); the timestamp handler itself never
produces it. -/
inductive TimestampResult
  | printTimestamp (t : Nat)
  | printInvalidArguments
  | printStorageError (e : FS_Error)
deriving DecidableEq, Repr

/-- Model of `storage_cli_timestamp` (`storage_cli.c:399-413`): call
`storage_common_timestamp` (result: `error`, and on success the timestamp
`t`); on any non-OK error print the fixed text "Invalid arguments" (not the
mapped storage-error description), otherwise print the timestamp. -/
def storage_cli_timestamp (error : FS_Error) (t : Nat) : TimestampResult :=
  if error ≠ FS_Error.FSE_OK then .printInvalidArguments
  else .printTimestamp t

/-- Model of `storage_cli_remove` (`storage_cli.c:436-446`): returns the storage error
passed to `storage_cli_print_error`, or `none` when the operation succeeded
silently. -/
def storage_cli_remove (error : FS_Error) : Option FS_Error :=
  if error ≠ FS_Error.FSE_OK then some error else none

/-- Model of `storage_cli_mkdir` (`storage_cli.c:490-500`): same reporting shape as
`storage_cli_remove`. -/
def storage_cli_mkdir (error : FS_Error) : Option FS_Error :=
  if error ≠ FS_Error.FSE_OK then some error else none

/-- What a two-path command (`copy` / `rename` / `migrate`) prints. -/
inductive SimpleCmdResult
  | printUsage
  | printStorageError (e : FS_Error)
  | quiet
deriving DecidableEq, Repr

/-- Model of `storage_cli_copy` (`storage_cli.c:415-434`): if the second path token
cannot be read from the remaining arguments, print usage; otherwise report
the storage error of `storage_common_copy` via `storage_cli_print_error`
when it is non-OK. -/
def storage_cli_copy (newPathOk : Bool) (error : FS_Error) : SimpleCmdResult :=
  if ¬newPathOk then .printUsage
  else if error ≠ FS_Error.FSE_OK then .printStorageError error
  else .quiet

/-- Model of `storage_cli_rename` (`storage_cli.c:448-467`): same shape as
`storage_cli_copy` over `storage_common_rename`. -/
def storage_cli_rename (newPathOk : Bool) (error : FS_Error) : SimpleCmdResult :=
  if ¬newPathOk then .printUsage
  else if error ≠ FS_Error.FSE_OK then .printStorageError error
  else .quiet

/-- Model of `storage_cli_migrate` (`storage_cli.c:469-488`): same shape as
`storage_cli_copy` over `storage_common_migrate`. -/
def storage_cli_migrate (newPathOk : Bool) (error : FS_Error) : SimpleCmdResult :=
  if ¬newPathOk then .printUsage
  else if error ≠ FS_Error.FSE_OK then .printStorageError error
  else .quiet

/-- Resource and output events of a handler run, in program order. -/
inductive REvent
  | recordOpen
  | recordClose
  | fileAlloc
  | fileFree
  | fileOpen (ok : Bool)
  | fileClose
  | dirOpen (ok : Bool)
  | dirClose
  | bufAlloc
  | bufFree
  | stringAlloc
  | stringFree
  | usageOut
  | errorOut
  | dataOut
deriving DecidableEq, Repr

/-- Event trace of `storage_cli_read` (`storage_cli.c:197-226`): record open,
file alloc, open attempt; on success malloc the 128-byte buffer, run the read
loop, free the buffer; on failure print the storage error; then always close
the file, free it, and close the record. -/
def storage_cli_read_events (openOk : Bool) : List REvent :=
  [.recordOpen, .fileAlloc, .fileOpen openOk] ++
    (if openOk then [.bufAlloc, .dataOut, .bufFree] else [.errorOut]) ++
    [.fileClose, .fileFree, .recordClose]

/-- Event trace of `storage_cli_write` (`storage_cli.c:228-280`): record
open, file alloc, malloc the 512-byte buffer, open attempt; on success run
the write loop, on failure print the storage error; then always close the
file, free the buffer, free the file, and close the record. -/
def storage_cli_write_events (openOk : Bool) : List REvent :=
  [.recordOpen, .fileAlloc, .bufAlloc, .fileOpen openOk] ++
    (if openOk then [.dataOut] else [.errorOut]) ++
    [.fileClose, .bufFree, .fileFree, .recordClose]

/-- Event trace of `storage_cli_read_chunks` (`storage_cli.c:282-320`): on
parse failure only usage is printed (no open); otherwise the open is
attempted, and on success with a nonzero chunk size the data buffer is
allocated around the loop and freed; the file is closed and freed and the
record closed on every path. -/
def storage_cli_read_chunks_events (parsedOk : Bool) (n : Nat) (openOk : Bool) :
    List REvent :=
  [.recordOpen, .fileAlloc] ++
    (if ¬parsedOk then [.usageOut]
     else
       [.fileOpen openOk] ++
         (if openOk then (if n = 0 then [] else [.bufAlloc, .dataOut, .bufFree])
          else [.errorOut])) ++
    [.fileClose, .fileFree, .recordClose]

/-- Event trace of `storage_cli_write_chunk` (`storage_cli.c:322-356`): on
parse failure only usage is printed (no open, and `storage_file_close` is
not reached — it sits inside the `else` branch); otherwise the open is
attempted, on success with a nonzero chunk size the buffer is allocated,
the console read and file write happen, and the buffer is freed, then the
file is closed; the file object is freed and the record closed on every
path. -/
def storage_cli_write_chunk_events (parsedOk : Bool) (n : Nat) (openOk : Bool) :
    List REvent :=
  [.recordOpen, .fileAlloc] ++
    (if ¬parsedOk then [.usageOut]
     else
       [.fileOpen openOk] ++
         (if openOk then (if n = 0 then [] else [.bufAlloc, .dataOut, .bufFree])
          else [.errorOut]) ++
         [.fileClose]) ++
    [.fileFree, .recordClose]

/-- Event trace of `storage_cli_list` (`storage_cli.c:119-154`): the root
marker prints the three volume names without touching storage; otherwise a
directory cursor is opened, and the file object is closed and freed and the
record closed on every path. -/
def storage_cli_list_events (isRoot : Bool) (openOk : Bool) : List REvent :=
  if isRoot then [.dataOut]
  else
    [.recordOpen, .fileAlloc, .dirOpen openOk] ++
      (if openOk then [.dataOut] else [.errorOut]) ++
      [.dirClose, .fileFree, .recordClose]

/-- Event trace of `storage_cli_md5` (`storage_cli.c:502-520`): record open,
file alloc, digest string alloc, digest computation (which opens and closes
the file internally in the external `md5_calc` helper), then string free,
file close, file free, record close on every path. -/
def storage_cli_md5_events (calcOk : Bool) : List REvent :=
  [.recordOpen, .fileAlloc, .stringAlloc] ++
    (if calcOk then [.dataOut] else [.errorOut]) ++
    [.stringFree, .fileClose, .fileFree, .recordClose]

/-- A handler trace releases everything it acquired: allocations are matched
by frees, the record open count by record closes, and every successful
file/directory open is followed by a close. -/
def handleBalanced (t : List REvent) : Prop :=
  t.count .fileAlloc = t.count .fileFree ∧
  t.count .recordOpen = t.count .recordClose ∧
  t.count .bufAlloc = t.count .bufFree ∧
  t.count .stringAlloc = t.count .stringFree ∧
  t.count (.fileOpen true) ≤ t.count .fileClose ∧
  t.count (.dirOpen true) ≤ t.count .dirClose

instance (t : List REvent) : Decidable (handleBalanced t) := by
  unfold handleBalanced; infer_instance

/-- The SD-card information record printed by `storage_cli_info` for the
external volume. -/
structure SDInfoM where
  label : String
  fsType : String
  kbTotal : Nat
  kbFree : Nat
deriving DecidableEq, Repr

/-- What `storage_cli_info` prints. -/
inductive InfoOutput
  | intInfo (total free : Nat)
  | extInfo (sd : SDInfoM)
  | printStorageErr (e : FS_Error)
  | printUsage
deriving DecidableEq, Repr

/-- Model of `storage_cli_info` (`storage_cli.c:44-91`): exactly `/int` queries
`storage_common_fs_info` and prints totals; exactly `/ext` queries
`storage_sd_info`; every other path prints usage.  `fsInfoRes` and
`sdInfoRes` are the storage collaborator's answers to those queries. -/
def storage_cli_info (path : String) (fsInfoRes : Except FS_Error (Nat × Nat))
    (sdInfoRes : Except FS_Error SDInfoM) : InfoOutput :=
  if path = STORAGE_INT_PATH then
    match fsInfoRes with
    | .error e => .printStorageErr e
    | .ok (total, free) => .intInfo total free
  else if path = STORAGE_EXT_PATH then
    match sdInfoRes with
    | .error e => .printStorageErr e
    | .ok sd => .extInfo sd
  else .printUsage

/-- What `storage_cli_stat` prints. -/
inductive StatOutput
  | printStorageHeader
  | volumeInfo (total free : Nat)
  | dirInfo
  | fileInfo (size : Nat)
  | printStorageErr (e : FS_Error)
deriving DecidableEq, Repr

/-- Model of `storage_cli_stat` (`storage_cli.c:358-397`): the root marker `"/"`
prints the fixed label "Storage"; each of the three volume markers queries
`storage_common_fs_info` and prints total/free space; any other path is
stat'ed with `storage_common_stat` and reported as a directory or a file
with its size.  Storage errors are reported via `storage_cli_print_error`. -/
def storage_cli_stat (path : String) (fsInfoRes : Except FS_Error (Nat × Nat))
    (statRes : Except FS_Error FileInfoM) : StatOutput :=
  if path = "/" then .printStorageHeader
  else if path = STORAGE_EXT_PATH ∨ path = STORAGE_INT_PATH ∨ path = STORAGE_ANY_PATH then
    match fsInfoRes with
    | .error e => .printStorageErr e
    | .ok (total, free) => .volumeInfo total free
  else
    match statRes with
    | .error e => .printStorageErr e
    | .ok fi => if fi.isDir then .dirInfo else .fileInfo fi.size

/-- Output of `storage_cli_read`. -/
inductive ReadResult
  | printSizeAndContent (size : Nat) (content : List Nat)
  | printStorageError (e : FS_Error)
deriving DecidableEq, Repr

/-- Model of `storage_cli_read` (`storage_cli.c:197-226`): on open failure
print the storage error via `storage_cli_print_error`; on success print the
file size and then emit the whole content (the 128-byte `do`/`while` loop
reads and prints until a read returns zero bytes, i.e. every byte in
order). -/
def storage_cli_read (openRes : Except FS_Error (List Nat)) : ReadResult :=
  match openRes with
  | .error e => .printStorageError e
  | .ok content => .printSizeAndContent content.length content

/-- Output of `storage_cli_write_run`. -/
inductive WriteRunResult
  | session (outcome : Option (List Nat))
  | printStorageError (e : FS_Error)
deriving DecidableEq, Repr

/-- Model of the open branches of `storage_cli_write`
(`storage_cli.c:235` and `272-274`): on open failure print the storage error
via `storage_cli_print_error`; on success run the write-until-cancel session
(`storage_cli_write`). -/
def storage_cli_write_run (openRes : Except FS_Error Unit) (input : List Nat) :
    WriteRunResult :=
  match openRes with
  | .error e => .printStorageError e
  | .ok _ => .session (storage_cli_write input)

/-- Model of `storage_cli_list` (`storage_cli.c:119-154`): the root marker
prints the three fixed volume names; otherwise a directory cursor is opened
at the path (`fs p` is the storage collaborator's behaviour, as for the tree
walker), printing one line per entry, "Empty" for zero entries, and the
storage error via `storage_cli_print_error` when the cursor cannot be
opened.  The printed line shapes are the same as the tree walker's, so
`TreeLine` is reused. -/
def storage_cli_list (fs : String → Except FS_Error (List DirEntry)) (path : String) :
    List TreeLine :=
  if path = "/" then [.dirLine "int", .dirLine "ext", .dirLine "any"]
  else
    match fs path with
    | .error e => [.errorLine e]
    | .ok entries =>
      if entries = [] then [.emptyLine]
      else
        entries.map (fun en =>
          if en.info.isDir then .dirLine en.name else .fileLine en.name en.info.size)

/-- Model of the post-confirmation body of `storage_cli_format`
(`storage_cli.c:100-110`): after a `'y'`/`'Y'` answer, `storage_sd_format`
runs and its error is reported via `storage_cli_print_error` when non-OK
(`some e`); on `FSE_OK` the success message is printed instead (`none`). -/
def storage_cli_format_result (error : FS_Error) : Option FS_Error :=
  if error ≠ FS_Error.FSE_OK then some error else none

/-- Output of `storage_cli_md5`. -/
inductive Md5Result
  | printDigest (digest : String)
  | printStorageError (e : FS_Error)
deriving DecidableEq, Repr

/-- Model of `storage_cli_md5` (`storage_cli.c:502-520`): the external
`md5_string_calc_file` helper either yields the digest string, which is
printed, or fails with a file error, which is reported via
`storage_cli_print_error`. -/
def storage_cli_md5 (res : Except FS_Error String) : Md5Result :=
  match res with
  | .error e => .printStorageError e
  | .ok digest => .printDigest digest

/-! ## Theorems -/

/-- Arithmetic helper: stepping the ceiling-division count by one full chunk. -/
theorem ceil_div_step (n L : Nat) (hn : 0 < n) (hL : 0 < L) :
    (L + n - 1) / n = (L - n + n - 1) / n + 1 := by
  rcases Nat.le_total n L with h | h
  · have e1 : L - n + n - 1 = L - 1 := by omega
    have e2 : L + n - 1 = (L - 1) + n := by omega
    rw [e1, e2, Nat.add_div_right _ hn]
  · have e1 : L - n = 0 := by omega
    have e2 : L + n - 1 = (L - 1) + n := by omega
    rw [e1, e2, Nat.add_div_right _ hn, Nat.zero_add]
    rw [Nat.div_eq_of_lt (by omega), Nat.div_eq_of_lt (by omega)]

/-- Modular-arithmetic helper for the write-buffer cursor. -/
theorem write_index_step (i : Nat) (h : (i + 1) % write_buffer_size ≠ 0) :
    (i + 1) % write_buffer_size = i % write_buffer_size + 1 := by
  unfold write_buffer_size at *
  omega

/-- Loop invariant of `writeLoop`: consuming a run of non-cancel symbols
preserves the concatenation `out ++ buf` (flushes only move bytes from the
buffer to the file) and advances the cursor by the number of symbols. -/
theorem writeLoop_append (ws : List Nat) :
    ∀ (rest buf out : List Nat) (read_index : Nat),
      (∀ s ∈ ws, s ≠ CliSymbolAsciiETX) →
      buf.length = read_index % write_buffer_size →
      ∃ buf2 out2,
        writeLoop (ws ++ rest) buf read_index out
          = writeLoop rest buf2 (read_index + ws.length) out2 ∧
        out2 ++ buf2 = out ++ buf ++ ws ∧
        buf2.length = (read_index + ws.length) % write_buffer_size := by
  induction ws with
  | nil =>
    intro rest buf out read_index _ hinv
    exact ⟨buf, out, by simp, by simp, by simpa using hinv⟩
  | cons s ws ih =>
    intro rest buf out read_index hne hinv
    have hs : s ≠ CliSymbolAsciiETX := hne s (by simp)
    have hws : ∀ x ∈ ws, x ≠ CliSymbolAsciiETX := fun x hx => hne x (by simp [hx])
    rw [List.cons_append, writeLoop, if_neg (by intro hcon; exact hs hcon.1)]
    by_cases hmod : (read_index + 1) % write_buffer_size = 0
    · rw [if_pos hmod]
      obtain ⟨buf2, out2, heq, hcat, hlen⟩ :=
        ih rest [] (out ++ (buf ++ [s])) (read_index + 1) hws (by simpa using hmod.symm)
      refine ⟨buf2, out2, ?_, ?_, ?_⟩
      · rw [heq]
        have harith : read_index + 1 + ws.length = read_index + (s :: ws).length := by
          simp; omega
        rw [harith]
      · rw [hcat]; simp
      · rw [hlen]
        have harith : read_index + 1 + ws.length = read_index + (s :: ws).length := by
          simp; omega
        rw [harith]
    · rw [if_neg hmod]
      obtain ⟨buf2, out2, heq, hcat, hlen⟩ :=
        ih rest (buf ++ [s]) out (read_index + 1) hws
          (by simp [hinv, write_index_step _ hmod])
      refine ⟨buf2, out2, ?_, ?_, ?_⟩
      · rw [heq]
        have harith : read_index + 1 + ws.length = read_index + (s :: ws).length := by
          simp; omega
        rw [harith]
      · rw [hcat]; simp
      · rw [hlen]
        have harith : read_index + 1 + ws.length = read_index + (s :: ws).length := by
          simp; omega
        rw [harith]

/-- C1 (counterexample). At `k = 0` — a multiple of the 512-byte buffer
capacity — the claim predicts that the session terminates with stored content
`[]`.  Instead the cancel symbol fails the `write_size > 0` test, is stored
in the buffer as data and echoed, and the loop keeps reading: with input
exactly `[ETX]` the session never terminates (`none`), and with a second
cancel symbol the file ends up holding the first cancel byte. -/
theorem storage_cli_write_cancel_zero_pending :
    storage_cli_write [CliSymbolAsciiETX] = none ∧
    storage_cli_write [CliSymbolAsciiETX, CliSymbolAsciiETX] = some [CliSymbolAsciiETX] ∧
    (none : Option (List Nat)) ≠ some ([] : List Nat) := by
  decide

/-- C1 (amended): for every sequence of `k` non-cancel symbols with
`k % 512 ≠ 0` followed by the cancel symbol, the write protocol stores a file
whose content is exactly those `k` symbols in order, flushes the pending
remainder on cancellation, and terminates the session.  (When `k % 512 = 0`
the cancel symbol is instead consumed as ordinary data and the session
continues — see the counterexample.) -/
theorem storage_cli_write_roundtrip (ws : List Nat)
    (h1 : ∀ s ∈ ws, s ≠ CliSymbolAsciiETX)
    (h2 : ws.length % write_buffer_size ≠ 0) :
    storage_cli_write (ws ++ [CliSymbolAsciiETX]) = some ws := by
  unfold storage_cli_write
  obtain ⟨buf2, out2, heq, hcat, hlen⟩ :=
    writeLoop_append ws [CliSymbolAsciiETX] [] [] 0 h1 (by simp)
  rw [heq, writeLoop, if_pos ⟨rfl, by simpa using Nat.pos_of_ne_zero (by simpa using h2)⟩]
  have htake : buf2.take ((0 + ws.length) % write_buffer_size) = buf2 := by
    rw [← hlen]; exact List.take_length buf2
  rw [htake]
  simpa using hcat

/-- C1 (witness for the amended theorem). -/
theorem storage_cli_write_roundtrip_witness :
    storage_cli_write ([97] ++ [CliSymbolAsciiETX]) = some [97] :=
  storage_cli_write_roundtrip [97] (by decide) (by decide)

/-- Behaviour of the chunked-read loop for a positive chunk size and enough
fuel: it emits the whole content in order, and performs exactly
`ceil(L / n) = (L + n - 1) / n` handshake-gated reads, one acknowledgment
byte per read. -/
theorem readChunksLoopF_spec (n : Nat) (hn : 0 < n) :
    ∀ (fuel : Nat) (content : List Nat), content.length ≤ fuel →
      readChunksLoopF n fuel content
        = (content, (content.length + n - 1) / n, (content.length + n - 1) / n) := by
  intro fuel
  induction fuel with
  | zero =>
    intro content hle
    have hnil : content = [] := List.length_eq_zero.mp (Nat.le_zero.mp hle)
    subst hnil
    simp [readChunksLoopF, Nat.div_eq_of_lt (by omega : n - 1 < n)]
  | succ fuel ih =>
    intro content hle
    rw [readChunksLoopF]
    by_cases hc : 0 < content.length
    · rw [if_pos hc]
      have hdroplen : (content.drop n).length = content.length - n := by
        simp
      have hdrop : (content.drop n).length ≤ fuel := by
        rw [hdroplen]; omega
      rw [ih (content.drop n) hdrop]
      have hstep := ceil_div_step n content.length hn hc
      simp only [Prod.mk.injEq]
      refine ⟨List.take_append_drop n content, ?_, ?_⟩ <;>
        rw [hdroplen, ← hstep]
    · rw [if_neg hc]
      have hnil : content = [] := by
        cases content with
        | nil => rfl
        | cons a l => simp at hc
      subst hnil
      simp [Nat.div_eq_of_lt (by omega : n - 1 < n)]

/-- C2: read-in-chunks.  With a parsed chunk size `n` and a file of content
`content` (length `L`), the protocol prints the total size header, then emits
exactly the `L` file bytes in original order across `ceil(L / n)` reads when
`n > 0` — each read preceded by consuming exactly one console acknowledgment
byte — and performs no reads and emits nothing when `n = 0`, emitting only
the size header. -/
theorem storage_cli_read_chunks_spec (args : List Char) (n : Nat) (content : List Nat)
    (hp : sscanf_lu args = some n) :
    (storage_cli_read_chunks args (Except.ok content)).usagePrinted = false ∧
    (storage_cli_read_chunks args (Except.ok content)).openedFile = true ∧
    (storage_cli_read_chunks args (Except.ok content)).sizeHeader = some content.length ∧
    (n = 0 →
      (storage_cli_read_chunks args (Except.ok content)).emitted = [] ∧
      (storage_cli_read_chunks args (Except.ok content)).readsDone = 0 ∧
      (storage_cli_read_chunks args (Except.ok content)).acksConsumed = 0) ∧
    (0 < n →
      (storage_cli_read_chunks args (Except.ok content)).emitted = content ∧
      (storage_cli_read_chunks args (Except.ok content)).readsDone
        = (content.length + n - 1) / n ∧
      (storage_cli_read_chunks args (Except.ok content)).acksConsumed
        = (storage_cli_read_chunks args (Except.ok content)).readsDone) := by
  by_cases hn : n = 0
  · subst hn
    simp [storage_cli_read_chunks, hp]
  · have hn' : n ≠ 0 := hn
    simp only [storage_cli_read_chunks, hp, if_pos hn', readChunksLoop,
      readChunksLoopF_spec n (Nat.pos_of_ne_zero hn) content.length content (Nat.le_refl _)]
    simp [hn]

/-- C2 (witness): chunk size 2 over a 3-byte file gives the size header 3,
the 3 bytes in order, and `ceil(3/2) = 2` acknowledged reads. -/
theorem storage_cli_read_chunks_spec_witness :
    (storage_cli_read_chunks "2".toList (Except.ok [10, 20, 30])).usagePrinted = false ∧
    (storage_cli_read_chunks "2".toList (Except.ok [10, 20, 30])).openedFile = true ∧
    (storage_cli_read_chunks "2".toList (Except.ok [10, 20, 30])).sizeHeader
      = some [10, 20, 30].length ∧
    ((2 : Nat) = 0 →
      (storage_cli_read_chunks "2".toList (Except.ok [10, 20, 30])).emitted = [] ∧
      (storage_cli_read_chunks "2".toList (Except.ok [10, 20, 30])).readsDone = 0 ∧
      (storage_cli_read_chunks "2".toList (Except.ok [10, 20, 30])).acksConsumed = 0) ∧
    ((0 : Nat) < 2 →
      (storage_cli_read_chunks "2".toList (Except.ok [10, 20, 30])).emitted = [10, 20, 30] ∧
      (storage_cli_read_chunks "2".toList (Except.ok [10, 20, 30])).readsDone
        = ([10, 20, 30].length + 2 - 1) / 2 ∧
      (storage_cli_read_chunks "2".toList (Except.ok [10, 20, 30])).acksConsumed
        = (storage_cli_read_chunks "2".toList (Except.ok [10, 20, 30])).readsDone) :=
  storage_cli_read_chunks_spec "2".toList 2 [10, 20, 30] (by decide)

/-- C3: command dispatch.  For every input line: if the verb token or the
(possibly quoted) path token is absent or malformed, the dispatcher returns
`none` — usage is printed, no handler is invoked, and no storage handle is
touched (the dispatcher body contains no storage call; storage is only ever
opened inside handlers).  Otherwise the dispatcher invokes exactly the one
handler given by the first entry of the verb table whose verb matches the
verb token exactly, and returns `none` (usage) when no entry matches. -/
theorem storage_cli_dispatch_spec (args : List Char) :
    storage_cli args =
      match args_read_string_and_trim args with
      | none => none
      | some (cmd, rest1) =>
        match args_read_probably_quoted_string_and_trim rest1 with
        | none => none
        | some (path, rest2) => (tableLookup cmd).map (fun v => (v, path, rest2)) := by
  unfold storage_cli
  cases h1 : args_read_string_and_trim args with
  | none => rfl
  | some p =>
    obtain ⟨cmd, rest1⟩ := p
    dsimp only
    cases h2 : args_read_probably_quoted_string_and_trim rest1 with
    | none => rfl
    | some q =>
      obtain ⟨path, rest2⟩ := q
      dsimp only [tableLookup, storageCliTable, lookupVerb]
      by_cases g1 : cmd = "info".toList
      · subst g1; rfl
      simp only [if_neg g1]
      by_cases g2 : cmd = "format".toList
      · subst g2; rfl
      simp only [if_neg g2]
      by_cases g3 : cmd = "list".toList
      · subst g3; rfl
      simp only [if_neg g3]
      by_cases g4 : cmd = "tree".toList
      · subst g4; rfl
      simp only [if_neg g4]
      by_cases g5 : cmd = "read".toList
      · subst g5; rfl
      simp only [if_neg g5]
      by_cases g6 : cmd = "read_chunks".toList
      · subst g6; rfl
      simp only [if_neg g6]
      by_cases g7 : cmd = "write".toList
      · subst g7; rfl
      simp only [if_neg g7]
      by_cases g8 : cmd = "write_chunk".toList
      · subst g8; rfl
      simp only [if_neg g8]
      by_cases g9 : cmd = "copy".toList
      · subst g9; rfl
      simp only [if_neg g9]
      by_cases g10 : cmd = "remove".toList
      · subst g10; rfl
      simp only [if_neg g10]
      by_cases g11 : cmd = "rename".toList
      · subst g11; rfl
      simp only [if_neg g11]
      by_cases g12 : cmd = "migrate".toList
      · subst g12; rfl
      simp only [if_neg g12]
      by_cases g13 : cmd = "mkdir".toList
      · subst g13; rfl
      simp only [if_neg g13]
      by_cases g14 : cmd = "md5".toList
      · subst g14; rfl
      simp only [if_neg g14]
      by_cases g15 : cmd = "stat".toList
      · subst g15; rfl
      simp only [if_neg g15]
      by_cases g16 : cmd = "timestamp".toList
      · subst g16; rfl
      simp only [if_neg g16]
      rfl

/-- C4: destructive-operation gating.  The external-volume format performs
its irreversible action (`doFormat`, the `storage_sd_format` call) only when
the confirmation character read from the console is `'y'` or `'Y'`; any other
character leaves the state unchanged and prints the cancellation message.
The factory reset sets the reset flag and reboots (`wipeAndReboot`) exactly
when its confirmation character is `'y'` or `'Y'`, printing "Safe choice."
otherwise.  (The internal-volume format never formats at all: it prints the
`FSE_NOT_IMPLEMENTED` error.) -/
theorem storage_destructive_ops_gated (path : String) (answer c : Char) :
    (storage_cli_format path answer = .doFormat →
      (answer = 'y' ∨ answer = 'Y') ∧ path = STORAGE_EXT_PATH) ∧
    (answer ≠ 'y' → answer ≠ 'Y' → storage_cli_format path answer ≠ .doFormat) ∧
    (answer ≠ 'y' → answer ≠ 'Y' → path = STORAGE_EXT_PATH →
      storage_cli_format path answer = .printCancelled) ∧
    (storage_cli_format STORAGE_INT_PATH answer = .printErrorNotImplemented) ∧
    (storage_cli_factory_reset c = .wipeAndReboot ↔ c = 'y' ∨ c = 'Y') ∧
    (c ≠ 'y' → c ≠ 'Y' → storage_cli_factory_reset c = .printSafeChoice) := by
  refine ⟨?_, ?_, ?_, ?_, ?_, ?_⟩
  · intro h
    unfold storage_cli_format at h
    split_ifs at h with hint hext hyes
    exact ⟨hyes, hext⟩
  · intro hy hY
    unfold storage_cli_format
    split_ifs with hint hext hyes
    · simp
    · exact absurd hyes (by tauto)
    · simp
    · simp
  · intro hy hY hext
    subst hext
    unfold storage_cli_format
    rw [if_neg (by decide), if_pos rfl, if_neg (by tauto)]
  · unfold storage_cli_format
    rw [if_pos rfl]
  · unfold storage_cli_factory_reset
    constructor
    · intro h
      by_contra hcon
      rw [if_neg hcon] at h
      simp at h
    · intro h
      rw [if_pos h]
  · intro hy hY
    unfold storage_cli_factory_reset
    rw [if_neg (by tauto)]

/-- C4 (witness): with a non-confirming character the format is cancelled and
the factory reset takes the safe branch. -/
theorem storage_destructive_ops_gated_witness :
    storage_cli_format "/ext" 'n' = .printCancelled ∧
    storage_cli_factory_reset 'q' = .printSafeChoice :=
  ⟨(storage_destructive_ops_gated "/ext" 'n' 'q').2.2.1 (by decide) (by decide)
      (by simp [STORAGE_EXT_PATH]),
   (storage_destructive_ops_gated "/ext" 'n' 'q').2.2.2.2.2 (by decide) (by decide)⟩

/-- C5: write-one-chunk error flagging.  For a nonzero requested chunk size
`n`, the console read transfers `min n console.length` bytes, all of them are
written, and the error is reported if and only if the written count differs
from the requested size `n` — not from the count actually read.  Concretely,
requesting 5 bytes when the console yields only 3 writes all 3 bytes
successfully and still reports an error. -/
theorem storage_cli_write_chunk_error_flag (n : Nat) (console : List Nat) (hn : 0 < n) :
    ((storage_cli_write_chunk_io n console).errorReported = true ↔
      (storage_cli_write_chunk_io n console).writtenSize ≠ n) ∧
    (storage_cli_write_chunk_io n console).readBytes = min n console.length ∧
    (storage_cli_write_chunk_io n console).writtenSize
      = (storage_cli_write_chunk_io n console).readBytes ∧
    (storage_cli_write_chunk_io n console).fileAppend = console.take n ∧
    (storage_cli_write_chunk_io 5 [1, 2, 3]).readBytes = 3 ∧
    (storage_cli_write_chunk_io 5 [1, 2, 3]).writtenSize = 3 ∧
    (storage_cli_write_chunk_io 5 [1, 2, 3]).errorReported = true := by
  have hn' : n ≠ 0 := by omega
  unfold storage_cli_write_chunk_io
  rw [if_neg hn']
  refine ⟨?_, ?_, rfl, rfl, by decide, by decide, by decide⟩
  · simp [bne_iff_ne]
  · simp

/-- C5 (witness). -/
theorem storage_cli_write_chunk_error_flag_witness :
    ((storage_cli_write_chunk_io 5 [1, 2, 3]).errorReported = true ↔
      (storage_cli_write_chunk_io 5 [1, 2, 3]).writtenSize ≠ 5) ∧
    (storage_cli_write_chunk_io 5 [1, 2, 3]).readBytes = min 5 [1, 2, 3].length ∧
    (storage_cli_write_chunk_io 5 [1, 2, 3]).writtenSize
      = (storage_cli_write_chunk_io 5 [1, 2, 3]).readBytes ∧
    (storage_cli_write_chunk_io 5 [1, 2, 3]).fileAppend = [1, 2, 3].take 5 ∧
    (storage_cli_write_chunk_io 5 [1, 2, 3]).readBytes = 3 ∧
    (storage_cli_write_chunk_io 5 [1, 2, 3]).writtenSize = 3 ∧
    (storage_cli_write_chunk_io 5 [1, 2, 3]).errorReported = true :=
  storage_cli_write_chunk_error_flag 5 [1, 2, 3] (by decide)

/-- C6: argument-before-open ordering.  When the trailing argument does not
parse as an unsigned integer, both `read_chunks` and `write_chunk` print the
usage text and never attempt to open a file handle, whatever the storage
collaborator would have answered. -/
theorem chunk_size_checked_before_open (args : List Char)
    (fileRes : Except FS_Error (List Nat)) (openRes : Except FS_Error Unit)
    (console : List Nat) (hbad : sscanf_lu args = none) :
    (storage_cli_read_chunks args fileRes).usagePrinted = true ∧
    (storage_cli_read_chunks args fileRes).openedFile = false ∧
    (storage_cli_write_chunk args openRes console).usagePrinted = true ∧
    (storage_cli_write_chunk args openRes console).openedFile = false := by
  unfold storage_cli_read_chunks storage_cli_write_chunk
  rw [hbad]
  exact ⟨rfl, rfl, rfl, rfl⟩

/-- C6 (witness): a non-numeric trailing argument. -/
theorem chunk_size_checked_before_open_witness :
    (storage_cli_read_chunks "q".toList (Except.ok [1])).usagePrinted = true ∧
    (storage_cli_read_chunks "q".toList (Except.ok [1])).openedFile = false ∧
    (storage_cli_write_chunk "q".toList (Except.ok ()) [2]).usagePrinted = true ∧
    (storage_cli_write_chunk "q".toList (Except.ok ()) [2]).openedFile = false :=
  chunk_size_checked_before_open "q".toList (Except.ok [1]) (Except.ok ()) [2] (by decide)

/-- C7: tree walker aggregate and empty behaviour.  For the exact root marker
the walker recurses once with the internal-volume marker and once with the
external-volume marker, concatenating their outputs in that order; for any
non-root path whose cursor opens but yields zero entries it prints exactly
the "Empty" indicator; and when the cursor cannot be opened it prints exactly
the storage error and performs no traversal. -/
theorem storage_cli_tree_spec (fs : String → Except FS_Error (List DirEntry))
    (p : String) (e : FS_Error) (hp : p ≠ "/") :
    storage_cli_tree fs "/"
      = storage_cli_tree fs STORAGE_INT_PATH ++ storage_cli_tree fs STORAGE_EXT_PATH ∧
    (fs p = .ok [] → storage_cli_tree fs p = [.emptyLine]) ∧
    (fs p = .error e → storage_cli_tree fs p = [.errorLine e]) := by
  refine ⟨?_, ?_, ?_⟩
  · rw [storage_cli_tree]
    simp
  · intro h
    rw [storage_cli_tree, if_neg hp, h]
    simp
  · intro h
    rw [storage_cli_tree, if_neg hp, h]

/-- C7 (witness): a storage behaviour where the internal volume is empty and
every other open fails. -/
theorem storage_cli_tree_spec_witness :
    (storage_cli_tree treeFsExample "/"
      = storage_cli_tree treeFsExample STORAGE_INT_PATH
          ++ storage_cli_tree treeFsExample STORAGE_EXT_PATH ∧
    (treeFsExample STORAGE_INT_PATH = .ok [] →
      storage_cli_tree treeFsExample STORAGE_INT_PATH = [.emptyLine]) ∧
    (treeFsExample STORAGE_INT_PATH = .error .FSE_NOT_READY →
      storage_cli_tree treeFsExample STORAGE_INT_PATH = [.errorLine .FSE_NOT_READY])) :=
  storage_cli_tree_spec treeFsExample STORAGE_INT_PATH .FSE_NOT_READY (by decide)

/-- C8 (counterexample).  The claim says every handler — including
`timestamp` — reports the mapped human-readable description of the specific
storage error code.  But on a failing `storage_common_timestamp`
(e.g. `FSE_INTERNAL`) the timestamp handler prints the fixed text
"Invalid arguments", not the output of `storage_cli_print_error` for that
error code. -/
theorem storage_cli_timestamp_not_mapped :
    storage_cli_timestamp FS_Error.FSE_INTERNAL 0 = .printInvalidArguments ∧
    TimestampResult.printInvalidArguments
      ≠ TimestampResult.printStorageError FS_Error.FSE_INTERNAL := by
  decide

/-- C8 (amended): when a storage call returns a non-OK error code `e`, every
error-reporting handler except `timestamp` reports the mapped description of
that specific error code (modelled as the `e` handed to
`storage_cli_print_error`) and aborts only the current command — every
handler is a total function whose result returns control to the dispatcher.
Covered, one storage-error path per handler in source order: `info` (both
volume queries), `format` (the `/int` not-implemented report and the
post-confirmation `storage_sd_format` report), `list` and `tree` (cursor
open failure), `read`, `read_chunks`, `write` and `write_chunk` (file open
failure), `copy`, `remove`, `rename`, `migrate`, `mkdir`, `md5`, `stat`
(both the volume space query and the common-stat path).  The `timestamp`
handler instead prints the fixed text "Invalid arguments" for every error
code. -/
theorem storage_error_reporting (e : FS_Error) (t n : Nat) (a : Char)
    (args : List Char) (console input : List Nat)
    (fs : String → Except FS_Error (List DirEntry)) (p q : String)
    (fr : Except FS_Error (Nat × Nat)) (sr : Except FS_Error SDInfoM)
    (fi : Except FS_Error FileInfoM)
    (he : e ≠ FS_Error.FSE_OK)
    (hargs : sscanf_lu args = some n)
    (hfs : fs p = .error e) (hp0 : p ≠ "/")
    (hq0 : q ≠ "/") (hq1 : q ≠ STORAGE_EXT_PATH) (hq2 : q ≠ STORAGE_INT_PATH)
    (hq3 : q ≠ STORAGE_ANY_PATH) :
    storage_cli_info STORAGE_INT_PATH (.error e) sr = .printStorageErr e ∧
    storage_cli_info STORAGE_EXT_PATH fr (.error e) = .printStorageErr e ∧
    storage_cli_format STORAGE_INT_PATH a = .printErrorNotImplemented ∧
    storage_cli_format_result e = some e ∧
    storage_cli_list fs p = [.errorLine e] ∧
    storage_cli_tree fs p = [.errorLine e] ∧
    storage_cli_read (.error e) = .printStorageError e ∧
    (storage_cli_read_chunks args (Except.error e)).openErrorPrinted = some e ∧
    storage_cli_write_run (.error e) input = .printStorageError e ∧
    (storage_cli_write_chunk args (Except.error e) console).openErrorPrinted = some e ∧
    storage_cli_copy true e = .printStorageError e ∧
    storage_cli_remove e = some e ∧
    storage_cli_rename true e = .printStorageError e ∧
    storage_cli_migrate true e = .printStorageError e ∧
    storage_cli_mkdir e = some e ∧
    storage_cli_md5 (.error e) = .printStorageError e ∧
    storage_cli_stat STORAGE_ANY_PATH (.error e) fi = .printStorageErr e ∧
    storage_cli_stat q fr (.error e) = .printStorageErr e ∧
    storage_cli_timestamp e t = .printInvalidArguments := by
  refine ⟨?_, ?_, ?_, ?_, ?_, ?_, rfl, ?_, rfl, ?_, ?_, ?_, ?_, ?_, ?_, rfl, ?_, ?_, ?_⟩
  · unfold storage_cli_info
    rw [if_pos rfl]
  · unfold storage_cli_info
    rw [if_neg (by decide), if_pos rfl]
  · unfold storage_cli_format
    rw [if_pos rfl]
  · unfold storage_cli_format_result
    rw [if_pos he]
  · unfold storage_cli_list
    rw [if_neg hp0, hfs]
  · rw [storage_cli_tree, if_neg hp0, hfs]
  · unfold storage_cli_read_chunks
    rw [hargs]
  · unfold storage_cli_write_chunk
    rw [hargs]
  · unfold storage_cli_copy
    rw [if_neg (by simp), if_pos he]
  · unfold storage_cli_remove
    rw [if_pos he]
  · unfold storage_cli_rename
    rw [if_neg (by simp), if_pos he]
  · unfold storage_cli_migrate
    rw [if_neg (by simp), if_pos he]
  · unfold storage_cli_mkdir
    rw [if_pos he]
  · unfold storage_cli_stat
    rw [if_neg (by decide), if_pos (by decide)]
  · unfold storage_cli_stat
    rw [if_neg hq0, if_neg (by tauto)]
  · unfold storage_cli_timestamp
    rw [if_pos he]

/-- C8 (witness): error `FSE_NOT_READY` across every handler, with the list
and tree walkers on `"/ext"` (where the example storage behaviour fails to
open) and the common-stat path on `"/ext/foo"`. -/
theorem storage_error_reporting_witness :
    storage_cli_info STORAGE_INT_PATH (.error .FSE_NOT_READY) (.ok ⟨"SD", "FAT32", 8, 4⟩)
      = .printStorageErr .FSE_NOT_READY ∧
    storage_cli_info STORAGE_EXT_PATH (.ok (8, 4)) (.error .FSE_NOT_READY)
      = .printStorageErr .FSE_NOT_READY ∧
    storage_cli_format STORAGE_INT_PATH 'x' = .printErrorNotImplemented ∧
    storage_cli_format_result .FSE_NOT_READY = some .FSE_NOT_READY ∧
    storage_cli_list treeFsExample "/ext" = [.errorLine .FSE_NOT_READY] ∧
    storage_cli_tree treeFsExample "/ext" = [.errorLine .FSE_NOT_READY] ∧
    storage_cli_read (.error .FSE_NOT_READY) = .printStorageError .FSE_NOT_READY ∧
    (storage_cli_read_chunks "1".toList (Except.error .FSE_NOT_READY)).openErrorPrinted
      = some .FSE_NOT_READY ∧
    storage_cli_write_run (.error .FSE_NOT_READY) [] = .printStorageError .FSE_NOT_READY ∧
    (storage_cli_write_chunk "1".toList (Except.error .FSE_NOT_READY) []).openErrorPrinted
      = some .FSE_NOT_READY ∧
    storage_cli_copy true .FSE_NOT_READY = .printStorageError .FSE_NOT_READY ∧
    storage_cli_remove .FSE_NOT_READY = some .FSE_NOT_READY ∧
    storage_cli_rename true .FSE_NOT_READY = .printStorageError .FSE_NOT_READY ∧
    storage_cli_migrate true .FSE_NOT_READY = .printStorageError .FSE_NOT_READY ∧
    storage_cli_mkdir .FSE_NOT_READY = some .FSE_NOT_READY ∧
    storage_cli_md5 (.error .FSE_NOT_READY) = .printStorageError .FSE_NOT_READY ∧
    storage_cli_stat STORAGE_ANY_PATH (.error .FSE_NOT_READY) (.ok ⟨false, 0⟩)
      = .printStorageErr .FSE_NOT_READY ∧
    storage_cli_stat "/ext/foo" (.ok (8, 4)) (.error .FSE_NOT_READY)
      = .printStorageErr .FSE_NOT_READY ∧
    storage_cli_timestamp .FSE_NOT_READY 7 = .printInvalidArguments :=
  storage_error_reporting FS_Error.FSE_NOT_READY 7 1 'x' "1".toList [] []
    treeFsExample "/ext" "/ext/foo" (.ok (8, 4)) (.ok ⟨"SD", "FAT32", 8, 4⟩)
    (.ok ⟨false, 0⟩) (by decide) (by decide) rfl (by decide) (by decide) (by decide)
    (by decide) (by decide)

/-- C9: handle release invariant.  For every combination of parse success,
open success, chunk size, root-path flag and digest success, the event trace
of each handler is balanced: every file object allocated is freed, every
record open is matched by a record close, every data buffer and digest
string allocated is freed, and every successfully opened file or directory
handle is closed — on success, argument-parse failure, and storage-error
paths alike, before the handler returns. -/
theorem storage_handlers_release_resources (parsedOk openOk isRoot calcOk : Bool) (n : Nat) :
    handleBalanced (storage_cli_read_events openOk) ∧
    handleBalanced (storage_cli_write_events openOk) ∧
    handleBalanced (storage_cli_read_chunks_events parsedOk n openOk) ∧
    handleBalanced (storage_cli_write_chunk_events parsedOk n openOk) ∧
    handleBalanced (storage_cli_list_events isRoot openOk) ∧
    handleBalanced (storage_cli_md5_events calcOk) := by
  rcases n with _ | m
  · revert parsedOk openOk isRoot calcOk
    decide
  · have hm : ¬(m + 1 = 0) := Nat.succ_ne_zero m
    simp only [storage_cli_read_chunks_events, storage_cli_write_chunk_events, if_neg hm]
    revert parsedOk openOk isRoot calcOk
    decide

/-- C10: aggregate-path asymmetry between `info` and `stat`.  `stat` accepts
the root marker (printing the fixed "Storage" label) and all three volume
markers, reporting total and free space for each of them; `info` accepts
exactly the internal and external markers and prints the usage text for
every other path — including the any-volume marker and the root marker. -/
theorem storage_cli_info_stat_asymmetry (p : String) (total free : Nat) (sd : SDInfoM)
    (fr : Except FS_Error (Nat × Nat)) (sr : Except FS_Error SDInfoM)
    (fi : Except FS_Error FileInfoM)
    (hp1 : p ≠ STORAGE_INT_PATH) (hp2 : p ≠ STORAGE_EXT_PATH) :
    storage_cli_info p fr sr = .printUsage ∧
    storage_cli_info STORAGE_INT_PATH (.ok (total, free)) sr = .intInfo total free ∧
    storage_cli_info STORAGE_EXT_PATH fr (.ok sd) = .extInfo sd ∧
    storage_cli_info STORAGE_ANY_PATH fr sr = .printUsage ∧
    storage_cli_info "/" fr sr = .printUsage ∧
    storage_cli_stat "/" fr fi = .printStorageHeader ∧
    storage_cli_stat STORAGE_INT_PATH (.ok (total, free)) fi = .volumeInfo total free ∧
    storage_cli_stat STORAGE_EXT_PATH (.ok (total, free)) fi = .volumeInfo total free ∧
    storage_cli_stat STORAGE_ANY_PATH (.ok (total, free)) fi = .volumeInfo total free := by
  refine ⟨?_, ?_, ?_, ?_, ?_, ?_, ?_, ?_, ?_⟩
  · unfold storage_cli_info
    rw [if_neg hp1, if_neg hp2]
  · unfold storage_cli_info
    rw [if_pos rfl]
  · unfold storage_cli_info
    rw [if_neg (by decide), if_pos rfl]
  · unfold storage_cli_info
    rw [if_neg (by decide), if_neg (by decide)]
  · unfold storage_cli_info
    rw [if_neg (by decide), if_neg (by decide)]
  · unfold storage_cli_stat
    rw [if_pos rfl]
  · unfold storage_cli_stat
    rw [if_neg (by decide), if_pos (by decide)]
  · unfold storage_cli_stat
    rw [if_neg (by decide), if_pos (by decide)]
  · unfold storage_cli_stat
    rw [if_neg (by decide), if_pos (by decide)]

/-- C10 (witness): a plain sub-path is neither volume marker. -/
theorem storage_cli_info_stat_asymmetry_witness :
    storage_cli_info "/ext/foo" (.error .FSE_INTERNAL) (.error .FSE_INTERNAL) = .printUsage ∧
    storage_cli_info STORAGE_INT_PATH (.ok (8, 4)) (.error .FSE_INTERNAL) = .intInfo 8 4 ∧
    storage_cli_info STORAGE_EXT_PATH (.error .FSE_INTERNAL) (.ok ⟨"SD", "FAT32", 8, 4⟩)
      = .extInfo ⟨"SD", "FAT32", 8, 4⟩ ∧
    storage_cli_info STORAGE_ANY_PATH (.error .FSE_INTERNAL) (.error .FSE_INTERNAL)
      = .printUsage ∧
    storage_cli_info "/" (.error .FSE_INTERNAL) (.error .FSE_INTERNAL) = .printUsage ∧
    storage_cli_stat "/" (.error .FSE_INTERNAL) (.error .FSE_DENIED) = .printStorageHeader ∧
    storage_cli_stat STORAGE_INT_PATH (.ok (8, 4)) (.error .FSE_DENIED) = .volumeInfo 8 4 ∧
    storage_cli_stat STORAGE_EXT_PATH (.ok (8, 4)) (.error .FSE_DENIED) = .volumeInfo 8 4 ∧
    storage_cli_stat STORAGE_ANY_PATH (.ok (8, 4)) (.error .FSE_DENIED) = .volumeInfo 8 4 :=
  storage_cli_info_stat_asymmetry "/ext/foo" 8 4 ⟨"SD", "FAT32", 8, 4⟩
    (.error .FSE_INTERNAL) (.error .FSE_INTERNAL) (.error .FSE_DENIED)
    (by decide) (by decide)
